import Mathlib

/-!
# Verification of the teensy40 clock-controller module

A shallow embedding of the clock-distribution code of the `teensy40`
crate (`src/ccm.rs`, `src/lpuart.rs`) together with proofs about it.

Registers are modelled as natural numbers; the `bit_field` crate's
`get_bits`/`set_bits` range operations are modelled arithmetically by
`getBits`/`setBits` below, which agree with the bitwise definitions on
every value.  Memory-mapped register state is passed explicitly as a
`Ccm` record holding the registers the modelled operations touch.
Rust functions that can panic are modelled as `Option`-valued
functions (`none` = panic).  The busy-wait loops (`while
cdhipr.get_bit(b) {}`) are modelled by recording which status bits an
operation polls before returning; the wait terminates when the
hardware clears the bit, which is the hardware-trust assumption the
crate itself makes.
-/

namespace Teensy40

/-- Read the bit field `[lo, lo+w)` of a register value, as in the
`bit_field` crate's `get_bits(lo..lo+w)`: shift right by `lo` and keep
the low `w` bits. -/
def getBits (v lo w : Nat) : Nat := v / 2 ^ lo % 2 ^ w

/-- Write `x` into the bit field `[lo, lo+w)` of a register value,
preserving every other bit, as in the `bit_field` crate's
`set_bits(lo..lo+w, x)` for in-range `x < 2 ^ w` (every write performed
by this crate is in range; `set_bits` panics otherwise). -/
def setBits (v lo w x : Nat) : Nat :=
  v / 2 ^ (lo + w) * 2 ^ (lo + w) + x * 2 ^ lo + v % 2 ^ lo

/-- Read a single bit as a boolean, as in `get_bit(i)`. -/
def getBit (v i : Nat) : Bool := getBits v i 1 = 1

/-- Set or clear a single bit `i`.  This is the observable effect of the
segmented-register writes `set.write(1 << i)` resp. `clear.write(1 << i)`
used for the analog PLL registers in `ccm.rs`. -/
def setBit (v i : Nat) (b : Bool) : Nat := setBits v i 1 (if b then 1 else 0)

theorem getBits_lt (v lo w : Nat) : getBits v lo w < 2 ^ w :=
  Nat.mod_lt _ (pow_pos (by norm_num) w)

/-- Reading back the field just written returns the written value. -/
theorem getBits_setBits_same (v lo w x : Nat) (hx : x < 2 ^ w) :
    getBits (setBits v lo w x) lo w = x := by
  unfold getBits setBits
  rw [pow_add]
  have h1 : v / (2 ^ lo * 2 ^ w) * (2 ^ lo * 2 ^ w) + x * 2 ^ lo + v % 2 ^ lo
      = 2 ^ lo * (2 ^ w * (v / (2 ^ lo * 2 ^ w)) + x) + v % 2 ^ lo := by ring
  rw [h1, Nat.mul_add_div (pow_pos (by norm_num) lo),
    Nat.div_eq_of_lt (Nat.mod_lt v (pow_pos (by norm_num) lo)), Nat.add_zero,
    Nat.mul_add_mod, Nat.mod_eq_of_lt hx]

/-- Bits below the written field are preserved. -/
theorem setBits_mod_low (v x : Nat) {L lo w : Nat} (hL : L ≤ lo) :
    setBits v lo w x % 2 ^ L = v % 2 ^ L := by
  unfold setBits
  have d1 : 2 ^ L ∣ v / 2 ^ (lo + w) * 2 ^ (lo + w) :=
    Dvd.dvd.mul_left (pow_dvd_pow 2 (by omega)) _
  have d2 : 2 ^ L ∣ x * 2 ^ lo := Dvd.dvd.mul_left (pow_dvd_pow 2 hL) _
  have hz : (v / 2 ^ (lo + w) * 2 ^ (lo + w) + x * 2 ^ lo) % 2 ^ L = 0 := by
    obtain ⟨k, hk⟩ := dvd_add d1 d2
    rw [hk, Nat.mul_mod_right]
  calc (v / 2 ^ (lo + w) * 2 ^ (lo + w) + x * 2 ^ lo + v % 2 ^ lo) % 2 ^ L
      = ((v / 2 ^ (lo + w) * 2 ^ (lo + w) + x * 2 ^ lo) % 2 ^ L
          + v % 2 ^ lo % 2 ^ L) % 2 ^ L := by rw [Nat.add_mod]
    _ = v % 2 ^ lo % 2 ^ L % 2 ^ L := by rw [hz, Nat.zero_add]
    _ = v % 2 ^ lo % 2 ^ L := Nat.mod_mod_of_dvd _ dvd_rfl
    _ = v % 2 ^ L := Nat.mod_mod_of_dvd v (pow_dvd_pow 2 hL)

/-- Bits at or above the top of the written field are preserved. -/
theorem setBits_div_high (v x : Nat) {lo w H : Nat} (hx : x < 2 ^ w)
    (hH : lo + w ≤ H) : setBits v lo w x / 2 ^ H = v / 2 ^ H := by
  have htail : x * 2 ^ lo + v % 2 ^ lo < 2 ^ (lo + w) := by
    have h1 : v % 2 ^ lo < 2 ^ lo := Nat.mod_lt v (pow_pos (by norm_num) lo)
    have h2 : (x + 1) * 2 ^ lo ≤ 2 ^ w * 2 ^ lo := Nat.mul_le_mul_right _ hx
    calc x * 2 ^ lo + v % 2 ^ lo < (x + 1) * 2 ^ lo := by
          rw [Nat.add_mul, Nat.one_mul]; omega
      _ ≤ 2 ^ w * 2 ^ lo := h2
      _ = 2 ^ (lo + w) := by rw [← pow_add, Nat.add_comm]
  have hstep : setBits v lo w x / 2 ^ (lo + w) = v / 2 ^ (lo + w) := by
    unfold setBits
    rw [Nat.add_assoc, Nat.mul_comm (v / 2 ^ (lo + w)),
      Nat.mul_add_div (pow_pos (by norm_num) (lo + w)),
      Nat.div_eq_of_lt htail, Nat.add_zero]
  have hsplit : 2 ^ H = 2 ^ (lo + w) * 2 ^ (H - (lo + w)) := by
    rw [← pow_add]; congr 1; omega
  rw [hsplit, ← Nat.div_div_eq_div_mul, ← Nat.div_div_eq_div_mul, hstep]

/-- A field read only depends on the register value modulo `2 ^ L`
when the field lies entirely below bit `L`. -/
theorem getBits_eq_of_mod_eq {a b L lo w : Nat} (h : lo + w ≤ L)
    (hab : a % 2 ^ L = b % 2 ^ L) : getBits a lo w = getBits b lo w := by
  unfold getBits
  rw [← Nat.mod_mul_right_div_self, ← Nat.mod_mul_right_div_self, ← pow_add]
  have hmm : a % 2 ^ (lo + w) = b % 2 ^ (lo + w) := by
    rw [← Nat.mod_mod_of_dvd a (pow_dvd_pow 2 h), hab,
      Nat.mod_mod_of_dvd b (pow_dvd_pow 2 h)]
  rw [hmm]

/-- A field read only depends on the register value divided by `2 ^ H`
when the field lies entirely at or above bit `H`. -/
theorem getBits_eq_of_div_eq {a b H lo w : Nat} (h : H ≤ lo)
    (hab : a / 2 ^ H = b / 2 ^ H) : getBits a lo w = getBits b lo w := by
  unfold getBits
  have hlo : 2 ^ lo = 2 ^ H * 2 ^ (lo - H) := by rw [← pow_add]; congr 1; omega
  rw [hlo, ← Nat.div_div_eq_div_mul, ← Nat.div_div_eq_div_mul, hab]

/-- Reading a field disjoint from (below) the written field is unchanged. -/
theorem getBits_setBits_below (v x : Nat) {lo w lo' w' : Nat}
    (h : lo' + w' ≤ lo) : getBits (setBits v lo w x) lo' w' = getBits v lo' w' :=
  getBits_eq_of_mod_eq h (setBits_mod_low v x le_rfl)

/-- Reading a field disjoint from (above) the written field is unchanged. -/
theorem getBits_setBits_above (v x : Nat) {lo w lo' w' : Nat} (hx : x < 2 ^ w)
    (h : lo + w ≤ lo') : getBits (setBits v lo w x) lo' w' = getBits v lo' w' :=
  getBits_eq_of_div_eq le_rfl (setBits_div_high v x hx h)

/-- Errors returned while trying to retrieve a clocking subsystem.

The declaration of `enum ClockError` at ccm.rs:166-173 lists only
`InUse` and `TooFast`, but `check_clock` in lpuart.rs:70 constructs
`ClockError::Disabled` and the specification (§7) lists `Disabled` as
an error kind, so the embedding carries all three constructors. -/
inductive ClockError
  /-- The clock component is in use, and thus cannot be modified. -/
  | InUse
  /-- The configuration would lead to a peripheral being overclocked. -/
  | TooFast
  /-- The clock source feeding a peripheral is not currently active. -/
  | Disabled
deriving DecidableEq

deriving instance DecidableEq for Except

/-- The clock source used by the `PRE_PERIPH_CLK_SEL` mux. -/
inductive PrePeriphClockInput
  | ArmPll
  | SystemPll
  | SystemPllPfd0
  | SystemPllPfd2
deriving DecidableEq

/-- `impl From<u32> for PrePeriphClockInput` (ccm.rs:197-207); the
panicking arm is `none`. -/
def PrePeriphClockInput.fromRaw : Nat → Option PrePeriphClockInput
  | 0 => some .SystemPll
  | 1 => some .SystemPllPfd2
  | 2 => some .SystemPllPfd0
  | 3 => some .ArmPll
  | _ => none

/-- `impl From<PrePeriphClockInput> for u32` (ccm.rs:210-219). -/
def PrePeriphClockInput.toRaw : PrePeriphClockInput → Nat
  | .ArmPll => 3
  | .SystemPll => 0
  | .SystemPllPfd0 => 2
  | .SystemPllPfd2 => 1

/-- The clock input for the `PERIPH_CLK2_SEL` mux. -/
inductive PeriphClock2Input
  | SystemPllBypass
  | Usb1Pll
  | Oscillator
deriving DecidableEq

/-- `impl From<u32> for PeriphClock2Input` (ccm.rs:239-248); the
panicking arm (raw 3) is `none`. -/
def PeriphClock2Input.fromRaw : Nat → Option PeriphClock2Input
  | 0 => some .Usb1Pll
  | 1 => some .Oscillator
  | 2 => some .SystemPllBypass
  | _ => none

/-- `impl From<PeriphClock2Input> for u32` (ccm.rs:251-259). -/
def PeriphClock2Input.toRaw : PeriphClock2Input → Nat
  | .SystemPllBypass => 2
  | .Usb1Pll => 0
  | .Oscillator => 1

/-- The clock input for the `PERIPH_CLK_SEL` mux. -/
inductive PeriphClockInput
  | PrePeriphClock
  | PeriphClock2
deriving DecidableEq

/-- `impl From<u32> for PeriphClockInput` (ccm.rs:271-279). -/
def PeriphClockInput.fromRaw : Nat → Option PeriphClockInput
  | 0 => some .PrePeriphClock
  | 1 => some .PeriphClock2
  | _ => none

/-- `impl From<PeriphClockInput> for u32` (ccm.rs:282-289). -/
def PeriphClockInput.toRaw : PeriphClockInput → Nat
  | .PrePeriphClock => 0
  | .PeriphClock2 => 1

/-- The clock input for the `UART_CLK_SEL` mux. -/
inductive UartClockInput
  | Usb1PllOverSix
  | Oscillator
deriving DecidableEq

/-- `impl From<u32> for UartClockInput` (ccm.rs:301-309). -/
def UartClockInput.fromRaw : Nat → Option UartClockInput
  | 0 => some .Usb1PllOverSix
  | 1 => some .Oscillator
  | _ => none

/-- `impl From<UartClockInput> for u32` (ccm.rs:312-319). -/
def UartClockInput.toRaw : UartClockInput → Nat
  | .Usb1PllOverSix => 0
  | .Oscillator => 1

/-- The states a device's clock gate can be in. -/
inductive ClockGate
  | Disabled
  | Enabled
  | EnabledDuringWake
deriving DecidableEq

/-- `impl From<u32> for ClockGate` (ccm.rs:334-343).  The raw value 2
hits the panicking arm and is `none`. -/
def ClockGate.fromRaw : Nat → Option ClockGate
  | 0 => some .Disabled
  | 1 => some .EnabledDuringWake
  | 3 => some .Enabled
  | _ => none

/-- `impl From<ClockGate> for u32` (ccm.rs:346-354). -/
def ClockGate.toRaw : ClockGate → Nat
  | .Disabled => 0
  | .Enabled => 3
  | .EnabledDuringWake => 1

/-- The possible multipliers for the core peripheral PLLs. -/
inductive PeripheralPllMultiplier
  | Twenty
  | TwentyTwo
deriving DecidableEq

/-- `impl From<u32> for PeripheralPllMultiplier` (ccm.rs:367-375). -/
def PeripheralPllMultiplier.fromRaw : Nat → Option PeripheralPllMultiplier
  | 0 => some .Twenty
  | 1 => some .TwentyTwo
  | _ => none

/-- `impl From<PeripheralPllMultiplier> for u32` (ccm.rs:378-385). -/
def PeripheralPllMultiplier.toRaw : PeripheralPllMultiplier → Nat
  | .Twenty => 0
  | .TwentyTwo => 1

/-- The register state of the Clock Controller Module touched by the
modelled operations.  `CcmRegs` (ccm.rs:14-41) and `CcmAnalogRegs`
(ccm.rs:52-81) contain further registers that no modelled operation
reads or writes; they are omitted.  `ccgr` is the bank of eight
clock-gating registers; `pll_arm` and `pll_usb1` are the `val` parts
of the corresponding segmented analog registers. -/
structure Ccm where
  cbcdr : Nat
  cbcmr : Nat
  cscdr1 : Nat
  cdhipr : Nat
  ccgr : Fin 8 → Nat
  pll_arm : Nat
  pll_usb1 : Nat

namespace ArmPll

/-- `ArmPll::disable` (ccm.rs:424-433): set `pll_arm[bypass]` (bit 16),
clear `pll_arm[enable]` (bit 13), set `pll_arm[powerdown]` (bit 12),
in that order. -/
def disable (c : Ccm) : Ccm :=
  { c with pll_arm := setBit (setBit (setBit c.pll_arm 16 true) 13 false) 12 true }

end ArmPll

namespace Usb1Pll

/-- `Usb1Pll::multiplier` (ccm.rs:440-445): `pll_usb1[div_select]`,
bits 1..2. -/
def multiplier (c : Ccm) : Option PeripheralPllMultiplier :=
  PeripheralPllMultiplier.fromRaw (getBits c.pll_usb1 1 1)

/-- `Usb1Pll::enabled` (ccm.rs:447-453): `pll_usb1[power] &&
pll_usb1[enable]` (bits 12 and 13). -/
def enabled (c : Ccm) : Bool :=
  getBit c.pll_usb1 12 && getBit c.pll_usb1 13

end Usb1Pll

namespace PeriphClockSelector

/-- Module documentation, ccm.rs:139-140: "Because this is a glitchless
mux, setting its input source does not require disabling downstream
consumers." -/
def glitchless : Bool := true

/-- `PeriphClockSelector::input` (ccm.rs:461-464):
`cbcdr[periph_clk_sel]`, bits 25..26. -/
def input (c : Ccm) : Option PeriphClockInput :=
  PeriphClockInput.fromRaw (getBits c.cbcdr 25 1)

/-- `PeriphClockSelector::set_input` (ccm.rs:472-485): write bits
25..26 of `cbcdr`, then busy-wait on `cdhipr[periph_clk_sel_busy]`
(bit 5) until the transfer completes.  The second component records
the `cdhipr` status bits polled before returning. -/
def set_input (c : Ccm) (i : PeriphClockInput) : Ccm × List Nat :=
  ({ c with cbcdr := setBits c.cbcdr 25 1 i.toRaw }, [5])

end PeriphClockSelector

namespace PeriphClock2Selector

/-- Module documentation, ccm.rs:133-134: "the muxes which feed into
this one are not glitchless". -/
def glitchless : Bool := false

/-- `PeriphClock2Selector::input` (ccm.rs:493-496):
`cbcmr[periph_clk2_sel]`, bits 12..14. -/
def input (c : Ccm) : Option PeriphClock2Input :=
  PeriphClock2Input.fromRaw (getBits c.cbcmr 12 2)

/-- `PeriphClock2Selector::set_input` (ccm.rs:504-517): write bits
12..14 of `cbcmr`, then busy-wait on `cdhipr[periph2_clk_sel_busy]`
(bit 3).  The second component records the `cdhipr` bits polled. -/
def set_input (c : Ccm) (i : PeriphClock2Input) : Ccm × List Nat :=
  ({ c with cbcmr := setBits c.cbcmr 12 2 i.toRaw }, [3])

end PeriphClock2Selector

namespace PrePeriphClockSelector

/-- Module documentation, ccm.rs:133-134: "the muxes which feed into
this one are not glitchless". -/
def glitchless : Bool := false

/-- `PrePeriphClockSelector::input` (ccm.rs:525-528):
`cbcmr[pre_periph_clk_sel]`, bits 18..20. -/
def input (c : Ccm) : Option PrePeriphClockInput :=
  PrePeriphClockInput.fromRaw (getBits c.cbcmr 18 2)

/-- `PrePeriphClockSelector::set_input` (ccm.rs:536-543): write bits
18..20 of `cbcmr`.  No busy-wait is performed, so the poll trace is
empty. -/
def set_input (c : Ccm) (i : PrePeriphClockInput) : Ccm × List Nat :=
  ({ c with cbcmr := setBits c.cbcmr 18 2 i.toRaw }, [])

end PrePeriphClockSelector

namespace UartClockSelector

/-- `UartClockSelector::input` (ccm.rs:551-554):
`cscdr1[uart_clk_sel]`, bits 6..7. -/
def input (c : Ccm) : Option UartClockInput :=
  UartClockInput.fromRaw (getBits c.cscdr1 6 1)

/-- `UartClockSelector::divisor` (ccm.rs:557-562):
`cscdr1[uart_clk_podf]` (bits 0..6) plus one. -/
def divisor (c : Ccm) : Nat := getBits c.cscdr1 0 6 + 1

/-- `UartClockSelector::set_input` (ccm.rs:570-577): write bits 6..7
of `cscdr1`.  No busy-wait is performed. -/
def set_input (c : Ccm) (i : UartClockInput) : Ccm × List Nat :=
  ({ c with cscdr1 := setBits c.cscdr1 6 1 i.toRaw }, [])

/-- `UartClockSelector::set_divisor` (ccm.rs:580-587): write
`divisor - 1` into bits 0..6 of `cscdr1`. -/
def set_divisor (c : Ccm) (d : Nat) : Ccm :=
  { c with cscdr1 := setBits c.cscdr1 0 6 (d - 1) }

end UartClockSelector

/-- The data a `ClockGated` implementation provides (ccm.rs:395-417):
the gate coordinates `GATE` and the clock-path predicate
`check_clock`.  The handle construction `unsafe fn enable()` takes no
register state and is modelled as producing `()`. -/
structure ClockGated where
  GATE : Fin 8 × Nat
  check_clock : Ccm → Option (Except ClockError Unit)

namespace Ccm

/-- `Ccm::clock_gate` (ccm.rs:732-735): decode the 2-bit field
`(gate.1 * 2)..(gate.1 * 2 + 2)` of `ccgr[gate.0]`; `none` models the
panic on the undefined raw pattern 2. -/
def clock_gate (c : Ccm) (gate : Fin 8 × Nat) : Option ClockGate :=
  ClockGate.fromRaw (getBits (c.ccgr gate.1) (gate.2 * 2) 2)

/-- `Ccm::set_clock_gate` (ccm.rs:743-748): read-modify-write of the
2-bit field of `ccgr[gate.0]`. -/
def set_clock_gate (c : Ccm) (gate : Fin 8 × Nat) (state : ClockGate) : Ccm :=
  { c with ccgr := Function.update c.ccgr gate.1 (setBits (c.ccgr gate.1) (gate.2 * 2) 2 state.toRaw) }

/-- `Ccm::enable` (ccm.rs:613-623): fail with `InUse` if the gate is
not `Disabled`, otherwise set the gate to `Enabled` and hand out the
peripheral.  Note that the implementation never consults
`T::check_clock`. -/
def enable (c : Ccm) (T : ClockGated) : Option (Except ClockError Unit × Ccm) :=
  match c.clock_gate T.GATE with
  | none => none
  | some g =>
    if g ≠ ClockGate.Disabled then some (Except.error ClockError.InUse, c)
    else some (Except.ok (), c.set_clock_gate T.GATE ClockGate.Enabled)

/-- `Ccm::arm_pll_mut` (ccm.rs:638-646): `InUse` iff the pre-periph
selector reads `ArmPll` and the periph selector reads
`PrePeriphClock`. -/
def arm_pll_mut (c : Ccm) : Except ClockError Unit :=
  if PrePeriphClockSelector.input c = some PrePeriphClockInput.ArmPll
      ∧ PeriphClockSelector.input c = some PeriphClockInput.PrePeriphClock then
    Except.error ClockError.InUse
  else Except.ok ()

/-- `Ccm::periph_clock2_selector_mut` (ccm.rs:669-677): succeeds iff
the primary selector does not read `PeriphClock2`. -/
def periph_clock2_selector_mut (c : Ccm) : Except ClockError Unit :=
  if PeriphClockSelector.input c ≠ some PeriphClockInput.PeriphClock2 then
    Except.ok ()
  else Except.error ClockError.InUse

/-- `Ccm::pre_periph_clock_selector_mut` (ccm.rs:688-696): succeeds
iff the primary selector does not read `PrePeriphClock`. -/
def pre_periph_clock_selector_mut (c : Ccm) : Except ClockError Unit :=
  if PeriphClockSelector.input c ≠ some PeriphClockInput.PrePeriphClock then
    Except.ok ()
  else Except.error ClockError.InUse

/-- The UART clock-gate coordinates listed in
`Ccm::uart_clock_selector_mut` (ccm.rs:708-717). -/
def uartClockGates : List (Fin 8 × Nat) :=
  [(5, 12), (0, 14), (0, 6), (1, 12), (3, 1), (3, 3), (5, 13), (6, 7)]

/-- The iterator chain `.map(clock_gate).any(!= Disabled)` of
`Ccm::uart_clock_selector_mut` (ccm.rs:719-724), with `any`'s
short-circuiting: later gates are not read (and so cannot panic) once
a non-`Disabled` gate is found. -/
def anyGateNotDisabled (c : Ccm) : List (Fin 8 × Nat) → Option Bool
  | [] => some false
  | g :: rest =>
    match c.clock_gate g with
    | none => none
    | some s =>
      if s ≠ ClockGate.Disabled then some true else anyGateNotDisabled c rest

/-- `Ccm::uart_clock_selector_mut` (ccm.rs:707-729): `InUse` iff any
UART clock gate is not `Disabled`. -/
def uart_clock_selector_mut (c : Ccm) : Option (Except ClockError Unit) :=
  (anyGateNotDisabled c uartClockGates).map fun b =>
    if b then Except.error ClockError.InUse else Except.ok ()

/-- `Ccm::sanitize` (ccm.rs:767-788): point the secondary feeder mux
at the oscillator, move the core clock to the secondary mux, then
disable the ARM PLL.  The two `.unwrap()` calls panic (`none`) if the
guarded accessors report `InUse`. -/
def sanitize (c : Ccm) : Option Ccm :=
  match c.periph_clock2_selector_mut with
  | Except.error _ => none
  | Except.ok _ =>
    let c1 := (PeriphClock2Selector.set_input c PeriphClock2Input.Oscillator).1
    let c2 := (PeriphClockSelector.set_input c1 PeriphClockInput.PeriphClock2).1
    match c2.arm_pll_mut with
    | Except.error _ => none
    | Except.ok _ => some (ArmPll.disable c2)

end Ccm

/-- `check_clock` generated for every `LpUartN` by the `uart!` macro
(lpuart.rs:53-82): the oscillator input is always safe; the USB1 PLL
input requires the PLL to be enabled and not overclocked relative to
the post-divider. -/
def LpUart.check_clock (c : Ccm) : Option (Except ClockError Unit) :=
  match UartClockSelector.input c with
  | none => none
  | some UartClockInput.Oscillator => some (Except.ok ())
  | some UartClockInput.Usb1PllOverSix =>
    if ¬ Usb1Pll.enabled c then some (Except.error ClockError.Disabled)
    else
      match Usb1Pll.multiplier c with
      | none => none
      | some m =>
        if m = PeripheralPllMultiplier.TwentyTwo ∧ UartClockSelector.divisor c = 1
        then some (Except.error ClockError.TooFast)
        else some (Except.ok ())

/-- `impl ClockGated for LpUart6` (lpuart.rs:43-94 via the macro
instantiation at lpuart.rs:192): gate `(3, 3)`. -/
def LpUart6 : ClockGated := ⟨((3 : Fin 8), 3), LpUart.check_clock⟩

/-- A concrete register state with every modelled register zero: the
primary selector reads `PrePeriphClock`, the UART mux reads
`Usb1PllOverSix` with divisor 1, every clock gate reads `Disabled`,
and both PLL registers read powered down. -/
def cZero : Ccm := ⟨0, 0, 0, 0, fun _ => 0, 0, 0⟩

/-- A concrete register state whose UART clock mux reads the USB1 PLL
path with post-divider 1 while `pll_usb1` has `div_select` (bit 1),
`power` (bit 12) and `enable` (bit 13) set: the PLL runs at the ×22
multiplier, so a UART fed from it is overclocked. -/
def cPllFast : Ccm := ⟨0, 0, 0, 0, fun _ => 0, 0, 2 + 2 ^ 12 + 2 ^ 13⟩

/-- A concrete register state whose clock gate `(3, 3)` (the LPUART6
gate) reads `Enabled` (raw 3 at bits 6..8 of `ccgr[3]`). -/
def cGate33On : Ccm := ⟨0, 0, 0, 0, fun i => if i = 3 then 3 * 2 ^ 6 else 0, 0, 0⟩

/-- A concrete register state whose every clock-gate register holds the
undefined in-between raw pattern 2 (binary 10) in every field, as
firmware-initialized hardware may. -/
def cRaw2 : Ccm := ⟨0, 0, 0, 0, fun _ => 2, 0, 0⟩

theorem periphClockInput_toRaw_lt (i : PeriphClockInput) : i.toRaw < 2 ^ 1 := by
  cases i <;> decide

theorem periphClock2Input_toRaw_lt (i : PeriphClock2Input) : i.toRaw < 2 ^ 2 := by
  cases i <;> decide

theorem prePeriphClockInput_toRaw_lt (i : PrePeriphClockInput) : i.toRaw < 2 ^ 2 := by
  cases i <;> decide

theorem uartClockInput_toRaw_lt (i : UartClockInput) : i.toRaw < 2 ^ 1 := by
  cases i <;> decide

theorem clockGate_toRaw_lt (s : ClockGate) : s.toRaw < 2 ^ 2 := by
  cases s <;> decide

/-- The select code written by `set_input` decodes back to the variant. -/
theorem periph_input_set_input (c : Ccm) (i : PeriphClockInput) :
    PeriphClockSelector.input (PeriphClockSelector.set_input c i).1 = some i := by
  show PeriphClockInput.fromRaw (getBits (setBits c.cbcdr 25 1 i.toRaw) 25 1) = some i
  rw [getBits_setBits_same _ _ _ _ (periphClockInput_toRaw_lt i)]
  cases i <;> rfl

/-- The select code written by `set_input` decodes back to the variant. -/
theorem periph2_input_set_input (c : Ccm) (i : PeriphClock2Input) :
    PeriphClock2Selector.input (PeriphClock2Selector.set_input c i).1 = some i := by
  show PeriphClock2Input.fromRaw (getBits (setBits c.cbcmr 12 2 i.toRaw) 12 2) = some i
  rw [getBits_setBits_same _ _ _ _ (periphClock2Input_toRaw_lt i)]
  cases i <;> rfl

/-- The select code written by `set_input` decodes back to the variant. -/
theorem pre_periph_input_set_input (c : Ccm) (i : PrePeriphClockInput) :
    PrePeriphClockSelector.input (PrePeriphClockSelector.set_input c i).1 = some i := by
  show PrePeriphClockInput.fromRaw (getBits (setBits c.cbcmr 18 2 i.toRaw) 18 2) = some i
  rw [getBits_setBits_same _ _ _ _ (prePeriphClockInput_toRaw_lt i)]
  cases i <;> rfl

/-- The select code written by `set_input` decodes back to the variant. -/
theorem uart_input_set_input (c : Ccm) (i : UartClockInput) :
    UartClockSelector.input (UartClockSelector.set_input c i).1 = some i := by
  show UartClockInput.fromRaw (getBits (setBits c.cscdr1 6 1 i.toRaw) 6 1) = some i
  rw [getBits_setBits_same _ _ _ _ (uartClockInput_toRaw_lt i)]
  cases i <;> rfl

/-- Setting a single bit makes that bit read back as written. -/
theorem getBit_setBit_same (v i : Nat) (b : Bool) : getBit (setBit v i b) i = b := by
  cases b <;> unfold getBit setBit <;>
    rw [getBits_setBits_same _ _ _ _ (by decide)] <;> rfl

/-- Setting a single bit leaves every higher bit unchanged. -/
theorem getBit_setBit_above (v i : Nat) (b : Bool) {i' : Nat} (h : i + 1 ≤ i') :
    getBit (setBit v i b) i' = getBit v i' := by
  unfold getBit setBit
  rw [getBits_setBits_above _ _ (by cases b <;> decide) h]

/-- C1: `Ccm::enable` does NOT behave as claimed: it never consults the
peripheral's clock-path predicate.  At the concrete state `cPllFast`
the LPUART predicate reports `TooFast` (the UART feeder mux reads the
under-divided ×22 USB1-PLL path), yet `enable` succeeds and sets the
gate to `Enabled` anyway, contradicting the documented contract of the
`ClockGated` trait (ccm.rs:388-391, 405-408). -/
theorem enable_skips_clock_path_check :
    LpUart.check_clock cPllFast = some (Except.error ClockError.TooFast) ∧
    Ccm.enable cPllFast LpUart6 =
      some (Except.ok (), Ccm.set_clock_gate cPllFast ((3 : Fin 8), 3) ClockGate.Enabled) ∧
    Ccm.clock_gate (Ccm.set_clock_gate cPllFast ((3 : Fin 8), 3) ClockGate.Enabled)
      ((3 : Fin 8), 3) = some ClockGate.Enabled :=
  ⟨by decide, rfl, by decide⟩

/-- C2: obtaining a feeder mux for mutation fails with `InUse` exactly
when the primary selector currently reads that feeder's output, and
succeeds otherwise; after repointing the primary selector at the other
input, the previously failing call succeeds. -/
theorem feeder_mut_in_use_iff (c : Ccm) :
    (Ccm.pre_periph_clock_selector_mut c = Except.error ClockError.InUse ↔
      PeriphClockSelector.input c = some PeriphClockInput.PrePeriphClock) ∧
    (Ccm.pre_periph_clock_selector_mut c = Except.ok () ↔
      PeriphClockSelector.input c ≠ some PeriphClockInput.PrePeriphClock) ∧
    (Ccm.periph_clock2_selector_mut c = Except.error ClockError.InUse ↔
      PeriphClockSelector.input c = some PeriphClockInput.PeriphClock2) ∧
    (Ccm.periph_clock2_selector_mut c = Except.ok () ↔
      PeriphClockSelector.input c ≠ some PeriphClockInput.PeriphClock2) ∧
    Ccm.pre_periph_clock_selector_mut
      (PeriphClockSelector.set_input c PeriphClockInput.PeriphClock2).1 = Except.ok () ∧
    Ccm.periph_clock2_selector_mut
      (PeriphClockSelector.set_input c PeriphClockInput.PrePeriphClock).1 = Except.ok () := by
  unfold Ccm.pre_periph_clock_selector_mut Ccm.periph_clock2_selector_mut
  rw [periph_input_set_input, periph_input_set_input]
  split_ifs <;> simp_all

/-- C5: for every clock mux and every legal input variant, `set_input`
followed by `input` returns the variant, the stored select code is the
one produced by the variant encoding, and all bits of the shared
control register outside the mux's select field are preserved. -/
theorem mux_set_input_roundtrip (c : Ccm) (v1 : PeriphClockInput)
    (v2 : PeriphClock2Input) (v3 : PrePeriphClockInput) (v4 : UartClockInput) :
    (PeriphClockSelector.input (PeriphClockSelector.set_input c v1).1 = some v1 ∧
      getBits (PeriphClockSelector.set_input c v1).1.cbcdr 25 1 = v1.toRaw ∧
      (PeriphClockSelector.set_input c v1).1.cbcdr % 2 ^ 25 = c.cbcdr % 2 ^ 25 ∧
      (PeriphClockSelector.set_input c v1).1.cbcdr / 2 ^ 26 = c.cbcdr / 2 ^ 26) ∧
    (PeriphClock2Selector.input (PeriphClock2Selector.set_input c v2).1 = some v2 ∧
      getBits (PeriphClock2Selector.set_input c v2).1.cbcmr 12 2 = v2.toRaw ∧
      (PeriphClock2Selector.set_input c v2).1.cbcmr % 2 ^ 12 = c.cbcmr % 2 ^ 12 ∧
      (PeriphClock2Selector.set_input c v2).1.cbcmr / 2 ^ 14 = c.cbcmr / 2 ^ 14) ∧
    (PrePeriphClockSelector.input (PrePeriphClockSelector.set_input c v3).1 = some v3 ∧
      getBits (PrePeriphClockSelector.set_input c v3).1.cbcmr 18 2 = v3.toRaw ∧
      (PrePeriphClockSelector.set_input c v3).1.cbcmr % 2 ^ 18 = c.cbcmr % 2 ^ 18 ∧
      (PrePeriphClockSelector.set_input c v3).1.cbcmr / 2 ^ 20 = c.cbcmr / 2 ^ 20) ∧
    (UartClockSelector.input (UartClockSelector.set_input c v4).1 = some v4 ∧
      getBits (UartClockSelector.set_input c v4).1.cscdr1 6 1 = v4.toRaw ∧
      (UartClockSelector.set_input c v4).1.cscdr1 % 2 ^ 6 = c.cscdr1 % 2 ^ 6 ∧
      (UartClockSelector.set_input c v4).1.cscdr1 / 2 ^ 7 = c.cscdr1 / 2 ^ 7) := by
  refine ⟨⟨periph_input_set_input c v1, ?_, ?_, ?_⟩,
    ⟨periph2_input_set_input c v2, ?_, ?_, ?_⟩,
    ⟨pre_periph_input_set_input c v3, ?_, ?_, ?_⟩,
    ⟨uart_input_set_input c v4, ?_, ?_, ?_⟩⟩
  · exact getBits_setBits_same _ _ _ _ (periphClockInput_toRaw_lt v1)
  · exact setBits_mod_low _ _ le_rfl
  · exact setBits_div_high _ _ (periphClockInput_toRaw_lt v1) le_rfl
  · exact getBits_setBits_same _ _ _ _ (periphClock2Input_toRaw_lt v2)
  · exact setBits_mod_low _ _ le_rfl
  · exact setBits_div_high _ _ (periphClock2Input_toRaw_lt v2) le_rfl
  · exact getBits_setBits_same _ _ _ _ (prePeriphClockInput_toRaw_lt v3)
  · exact setBits_mod_low _ _ le_rfl
  · exact setBits_div_high _ _ (prePeriphClockInput_toRaw_lt v3) le_rfl
  · exact getBits_setBits_same _ _ _ _ (uartClockInput_toRaw_lt v4)
  · exact setBits_mod_low _ _ le_rfl
  · exact setBits_div_high _ _ (uartClockInput_toRaw_lt v4) le_rfl

/-- C6: `Ccm::enable` on a gate that is currently `Enabled` or
`EnabledDuringWake` fails with `InUse` and leaves the register state
(in particular every gate) unchanged. -/
theorem enable_in_use (c : Ccm) (T : ClockGated)
    (h : c.clock_gate T.GATE = some ClockGate.Enabled ∨
      c.clock_gate T.GATE = some ClockGate.EnabledDuringWake) :
    Ccm.enable c T = some (Except.error ClockError.InUse, c) := by
  unfold Ccm.enable
  rcases h with h | h <;> rw [h] <;> rfl

/-- Witness for C6 at the concrete state `cGate33On` whose gate
`(3, 3)` is `Enabled`. -/
theorem enable_in_use_witness :
    Ccm.enable cGate33On LpUart6 = some (Except.error ClockError.InUse, cGate33On) :=
  enable_in_use cGate33On LpUart6 (Or.inl (by decide))

/-- C7 (counterexample): reading a clock-gate field holding the raw
in-between pattern 2 (binary 10) is NOT tolerated: `clock_gate` hits
the panicking arm of `From<u32> for ClockGate` (ccm.rs:340) instead of
returning a `GateState`. -/
theorem clock_gate_raw2_not_tolerated :
    Ccm.clock_gate cRaw2 ((0 : Fin 8), 0) = none := by decide

/-- C7 (amended): the system's own writes only ever produce the three
legal 2-bit encodings — a gate just written with `set_clock_gate`
always decodes back to the written state — but the in-between raw
pattern 2 is not tolerated on read: decoding it halts. -/
theorem clock_gate_own_writes_total (c : Ccm) (i : Fin 8) (j : Nat) (s : ClockGate) :
    Ccm.clock_gate (Ccm.set_clock_gate c (i, j) s) (i, j) = some s ∧
    ClockGate.fromRaw 2 = none := by
  constructor
  · show ClockGate.fromRaw
      (getBits (Function.update c.ccgr i (setBits (c.ccgr i) (j * 2) 2 s.toRaw) i) (j * 2) 2)
      = some s
    rw [Function.update_same, getBits_setBits_same _ _ _ _ (clockGate_toRaw_lt s)]
    cases s <;> rfl
  · rfl

/-- C9 (counterexample): the busy-wait behavior does not follow the
glitchless flag.  The non-glitchless `PrePeriphClockSelector` performs
no wait at all (ccm.rs:536-543), while the glitchless primary
`PeriphClockSelector` busy-waits on `cdhipr` bit 5 (ccm.rs:482-484). -/
theorem busy_wait_glitchless_mismatch :
    PrePeriphClockSelector.glitchless = false ∧
    (PrePeriphClockSelector.set_input cZero PrePeriphClockInput.SystemPll).2 = [] ∧
    PeriphClockSelector.glitchless = true ∧
    (PeriphClockSelector.set_input cZero PeriphClockInput.PrePeriphClock).2 = [5] :=
  ⟨rfl, rfl, rfl, rfl⟩

/-- C9 (amended): the primary `PeriphClockSelector` (glitchless)
busy-waits on `cdhipr[periph_clk_sel_busy]` (bit 5), the feeder
`PeriphClock2Selector` (non-glitchless) busy-waits on
`cdhipr[periph2_clk_sel_busy]` (bit 3), and the feeder
`PrePeriphClockSelector` (non-glitchless) and the `UartClockSelector`
perform no wait. -/
theorem set_input_poll_behavior (c : Ccm) (v1 : PeriphClockInput)
    (v2 : PeriphClock2Input) (v3 : PrePeriphClockInput) (v4 : UartClockInput) :
    ((PeriphClockSelector.set_input c v1).2 = [5] ∧ PeriphClockSelector.glitchless = true) ∧
    ((PeriphClock2Selector.set_input c v2).2 = [3] ∧ PeriphClock2Selector.glitchless = false) ∧
    ((PrePeriphClockSelector.set_input c v3).2 = [] ∧ PrePeriphClockSelector.glitchless = false) ∧
    (UartClockSelector.set_input c v4).2 = [] :=
  ⟨⟨rfl, rfl⟩, ⟨rfl, rfl⟩, ⟨rfl, rfl⟩, rfl⟩

/-- C3: the UART clock-path predicate accepts the oscillator input
unconditionally; on the USB1-PLL path it reports `Disabled` when the
PLL is off, `TooFast` exactly when the multiplier is ×22 and the
post-divider is 1, and accepts exactly when the multiplier is the
smaller legal value or the divider is greater than one. -/
theorem lpuart_check_clock_spec (c : Ccm) :
    (UartClockSelector.input c = some UartClockInput.Oscillator →
      LpUart.check_clock c = some (Except.ok ())) ∧
    (UartClockSelector.input c = some UartClockInput.Usb1PllOverSix →
      Usb1Pll.enabled c = false →
      LpUart.check_clock c = some (Except.error ClockError.Disabled)) ∧
    (UartClockSelector.input c = some UartClockInput.Usb1PllOverSix →
      Usb1Pll.enabled c = true →
      ((LpUart.check_clock c = some (Except.error ClockError.TooFast) ↔
        Usb1Pll.multiplier c = some PeripheralPllMultiplier.TwentyTwo ∧
          UartClockSelector.divisor c = 1) ∧
       (LpUart.check_clock c = some (Except.ok ()) ↔
        (Usb1Pll.multiplier c = some PeripheralPllMultiplier.Twenty ∨
          1 < UartClockSelector.divisor c)))) := by
  refine ⟨?_, ?_, ?_⟩
  · intro hin
    unfold LpUart.check_clock
    rw [hin]
  · intro hin hen
    unfold LpUart.check_clock
    rw [hin]
    simp [hen]
  · intro hin hen
    have hm : Usb1Pll.multiplier c = some PeripheralPllMultiplier.Twenty ∨
        Usb1Pll.multiplier c = some PeripheralPllMultiplier.TwentyTwo := by
      unfold Usb1Pll.multiplier
      have hlt : getBits c.pll_usb1 1 1 < 2 ^ 1 := getBits_lt _ _ _
      interval_cases h : getBits c.pll_usb1 1 1 <;> simp [PeripheralPllMultiplier.fromRaw]
    have hdiv : 1 ≤ UartClockSelector.divisor c := Nat.le_add_left 1 _
    unfold LpUart.check_clock
    rw [hin]
    simp only [hen, not_true_eq_false, if_false, Bool.not_true]
    rcases hm with hm | hm
    all_goals rw [hm]
    all_goals by_cases hd : UartClockSelector.divisor c = 1
    all_goals simp [hd]
    all_goals omega

/-- Witness for C3 at the concrete state `cZero`, where the UART mux
reads the USB1-PLL path and the PLL is off, so the predicate reports
`Disabled`. -/
theorem lpuart_check_clock_spec_witness :
    LpUart.check_clock cZero = some (Except.error ClockError.Disabled) :=
  (lpuart_check_clock_spec cZero).2.1 (by decide) (by decide)

/-- C4: `set_clock_gate` followed by `clock_gate` at the same legal
coordinates returns the written state, and every other legal gate
coordinate reads the same value after the write as before it. -/
theorem clock_gate_roundtrip_frame (c : Ccm) (i : Fin 8) (j : Nat) (_hj : j < 16)
    (s : ClockGate) (i' : Fin 8) (j' : Nat) (_hj' : j' < 16)
    (hne : (i, j) ≠ (i', j')) :
    Ccm.clock_gate (Ccm.set_clock_gate c (i, j) s) (i, j) = some s ∧
    Ccm.clock_gate (Ccm.set_clock_gate c (i, j) s) (i', j') = c.clock_gate (i', j') := by
  constructor
  · show ClockGate.fromRaw
      (getBits (Function.update c.ccgr i (setBits (c.ccgr i) (j * 2) 2 s.toRaw) i) (j * 2) 2)
      = some s
    rw [Function.update_same, getBits_setBits_same _ _ _ _ (clockGate_toRaw_lt s)]
    cases s <;> rfl
  · show ClockGate.fromRaw
      (getBits (Function.update c.ccgr i (setBits (c.ccgr i) (j * 2) 2 s.toRaw) i') (j' * 2) 2)
      = ClockGate.fromRaw (getBits (c.ccgr i') (j' * 2) 2)
    by_cases hi : i' = i
    · subst hi
      have hjj : j ≠ j' := fun hjx => hne (by rw [hjx])
      rw [Function.update_same]
      rcases Nat.lt_or_ge j' j with hlt | hge
      · exact congrArg _ (getBits_setBits_below _ _ (by omega))
      · exact congrArg _ (getBits_setBits_above _ _ (clockGate_toRaw_lt s) (by omega))
    · rw [Function.update_noteq hi]

/-- Witness for C4 at the concrete state `cZero`, gate `(0, 0)` written
to `Enabled`, sibling gate `(0, 1)` unchanged. -/
theorem clock_gate_roundtrip_frame_witness :
    Ccm.clock_gate (Ccm.set_clock_gate cZero ((0 : Fin 8), 0) ClockGate.Enabled)
      ((0 : Fin 8), 0) = some ClockGate.Enabled ∧
    Ccm.clock_gate (Ccm.set_clock_gate cZero ((0 : Fin 8), 0) ClockGate.Enabled)
      ((0 : Fin 8), 1) = Ccm.clock_gate cZero ((0 : Fin 8), 1) :=
  clock_gate_roundtrip_frame cZero 0 0 (by decide) ClockGate.Enabled 0 1 (by decide) (by decide)

/-- C8: on a tree whose primary selector reads `PrePeriphClock` (the
boot state), `sanitize` completes without error (no internal
acquisition reports `InUse`), pointing the `PeriphClock2Selector` at
the oscillator and the primary selector at `PeriphClock2`, with the
ARM PLL's bypass set, enable cleared and powerdown set. -/
theorem sanitize_spec (c : Ccm)
    (hboot : PeriphClockSelector.input c = some PeriphClockInput.PrePeriphClock) :
    ∃ c', Ccm.sanitize c = some c' ∧
      PeriphClock2Selector.input c' = some PeriphClock2Input.Oscillator ∧
      PeriphClockSelector.input c' = some PeriphClockInput.PeriphClock2 ∧
      getBit c'.pll_arm 16 = true ∧
      getBit c'.pll_arm 13 = false ∧
      getBit c'.pll_arm 12 = true := by
  have h0 : Ccm.periph_clock2_selector_mut c = Except.ok () := by
    have hpos : PeriphClockSelector.input c ≠ some PeriphClockInput.PeriphClock2 := by
      rw [hboot]; decide
    unfold Ccm.periph_clock2_selector_mut
    rw [if_pos hpos]
  have h2 : PeriphClockSelector.input
      (PeriphClockSelector.set_input
        (PeriphClock2Selector.set_input c PeriphClock2Input.Oscillator).1
        PeriphClockInput.PeriphClock2).1 = some PeriphClockInput.PeriphClock2 :=
    periph_input_set_input _ _
  have harm : Ccm.arm_pll_mut
      (PeriphClockSelector.set_input
        (PeriphClock2Selector.set_input c PeriphClock2Input.Oscillator).1
        PeriphClockInput.PeriphClock2).1 = Except.ok () := by
    have hneg : ¬ (PrePeriphClockSelector.input
          (PeriphClockSelector.set_input
            (PeriphClock2Selector.set_input c PeriphClock2Input.Oscillator).1
            PeriphClockInput.PeriphClock2).1 = some PrePeriphClockInput.ArmPll ∧
        PeriphClockSelector.input
          (PeriphClockSelector.set_input
            (PeriphClock2Selector.set_input c PeriphClock2Input.Oscillator).1
            PeriphClockInput.PeriphClock2).1 = some PeriphClockInput.PrePeriphClock) := by
      rintro ⟨-, hB⟩
      rw [h2] at hB
      exact absurd hB (by decide)
    unfold Ccm.arm_pll_mut
    rw [if_neg hneg]
  refine ⟨ArmPll.disable
    (PeriphClockSelector.set_input
      (PeriphClock2Selector.set_input c PeriphClock2Input.Oscillator).1
      PeriphClockInput.PeriphClock2).1, ?_, ?_, ?_, ?_, ?_, ?_⟩
  · simp only [Ccm.sanitize, h0, harm]
  · exact periph2_input_set_input c PeriphClock2Input.Oscillator
  · exact h2
  · show getBit (setBit (setBit (setBit
      (PeriphClockSelector.set_input
        (PeriphClock2Selector.set_input c PeriphClock2Input.Oscillator).1
        PeriphClockInput.PeriphClock2).1.pll_arm 16 true) 13 false) 12 true) 16 = true
    rw [getBit_setBit_above _ _ _ (by omega), getBit_setBit_above _ _ _ (by omega),
      getBit_setBit_same]
  · show getBit (setBit (setBit (setBit
      (PeriphClockSelector.set_input
        (PeriphClock2Selector.set_input c PeriphClock2Input.Oscillator).1
        PeriphClockInput.PeriphClock2).1.pll_arm 16 true) 13 false) 12 true) 13 = false
    rw [getBit_setBit_above _ _ _ (by omega), getBit_setBit_same]
  · show getBit (setBit (setBit (setBit
      (PeriphClockSelector.set_input
        (PeriphClock2Selector.set_input c PeriphClock2Input.Oscillator).1
        PeriphClockInput.PeriphClock2).1.pll_arm 16 true) 13 false) 12 true) 12 = true
    rw [getBit_setBit_same]

/-- Witness for C8 at the concrete all-zero boot state `cZero`. -/
theorem sanitize_spec_witness :
    ∃ c', Ccm.sanitize cZero = some c' ∧
      PeriphClock2Selector.input c' = some PeriphClock2Input.Oscillator ∧
      PeriphClockSelector.input c' = some PeriphClockInput.PeriphClock2 ∧
      getBit c'.pll_arm 16 = true ∧
      getBit c'.pll_arm 13 = false ∧
      getBit c'.pll_arm 12 = true :=
  sanitize_spec cZero (by decide)

/-- `anyGateNotDisabled` returns a value (does not panic) when every
listed gate field decodes. -/
theorem anyGateNotDisabled_isSome (c : Ccm) (l : List (Fin 8 × Nat))
    (h : ∀ g ∈ l, (c.clock_gate g).isSome) :
    (Ccm.anyGateNotDisabled c l).isSome := by
  induction l with
  | nil => rfl
  | cons g rest ih =>
    obtain ⟨s, hs⟩ := Option.isSome_iff_exists.mp (h g (List.mem_cons_self g rest))
    have ihr := ih fun g' hg' => h g' (List.mem_cons_of_mem g hg')
    unfold Ccm.anyGateNotDisabled
    rw [hs]
    by_cases hd : s = ClockGate.Disabled <;> simp [hd, ihr]

/-- The iterator chain reports `true` iff some listed gate is not
`Disabled`, and `false` iff all are `Disabled`, whenever every listed
gate field decodes. -/
theorem anyGateNotDisabled_spec (c : Ccm) (l : List (Fin 8 × Nat))
    (h : ∀ g ∈ l, (c.clock_gate g).isSome) :
    (Ccm.anyGateNotDisabled c l = some true ↔
      ∃ g ∈ l, c.clock_gate g ≠ some ClockGate.Disabled) ∧
    (Ccm.anyGateNotDisabled c l = some false ↔
      ∀ g ∈ l, c.clock_gate g = some ClockGate.Disabled) := by
  induction l with
  | nil => simp [Ccm.anyGateNotDisabled]
  | cons g rest ih =>
    obtain ⟨s, hs⟩ := Option.isSome_iff_exists.mp (h g (List.mem_cons_self g rest))
    have ihr := ih fun g' hg' => h g' (List.mem_cons_of_mem g hg')
    unfold Ccm.anyGateNotDisabled
    rw [hs]
    by_cases hd : s = ClockGate.Disabled
    · subst hd
      simp [ihr.1, ihr.2, hs]
    · simp [hs, hd]

/-- C10: `uart_clock_selector_mut` fails with `InUse` exactly when at
least one of the eight UART clock gates is in a state other than
`Disabled`, and succeeds exactly when all eight are `Disabled`
(assuming each of the eight gate fields decodes to a legal state). -/
theorem uart_clock_selector_mut_spec (c : Ccm)
    (h : ∀ g ∈ Ccm.uartClockGates, (c.clock_gate g).isSome) :
    (Ccm.uart_clock_selector_mut c = some (Except.error ClockError.InUse) ↔
      ∃ g ∈ Ccm.uartClockGates, c.clock_gate g ≠ some ClockGate.Disabled) ∧
    (Ccm.uart_clock_selector_mut c = some (Except.ok ()) ↔
      ∀ g ∈ Ccm.uartClockGates, c.clock_gate g = some ClockGate.Disabled) := by
  obtain ⟨hT, hF⟩ := anyGateNotDisabled_spec c Ccm.uartClockGates h
  obtain ⟨b, hb⟩ := Option.isSome_iff_exists.mp (anyGateNotDisabled_isSome c Ccm.uartClockGates h)
  cases b
  · have hall := hF.mp hb
    have hnex : ¬ ∃ g ∈ Ccm.uartClockGates, c.clock_gate g ≠ some ClockGate.Disabled := by
      rintro ⟨g, hg, hne⟩
      exact hne (hall g hg)
    unfold Ccm.uart_clock_selector_mut
    rw [hb]
    exact ⟨⟨fun hco => absurd hco (by decide), fun hco => absurd hco hnex⟩,
      ⟨fun _ => hall, fun _ => rfl⟩⟩
  · have hex := hT.mp hb
    have hnall : ¬ ∀ g ∈ Ccm.uartClockGates, c.clock_gate g = some ClockGate.Disabled := by
      intro hall
      have hfalse := hF.mpr hall
      rw [hb] at hfalse
      exact absurd hfalse (by decide)
    unfold Ccm.uart_clock_selector_mut
    rw [hb]
    exact ⟨⟨fun _ => hex, fun _ => rfl⟩,
      ⟨fun hco => absurd hco (by decide), fun hco => absurd hco hnall⟩⟩

/-- Witness for C10 at the concrete state `cZero`, where all eight
UART gates decode (all read `Disabled`). -/
theorem uart_clock_selector_mut_spec_witness :
    (Ccm.uart_clock_selector_mut cZero = some (Except.error ClockError.InUse) ↔
      ∃ g ∈ Ccm.uartClockGates, cZero.clock_gate g ≠ some ClockGate.Disabled) ∧
    (Ccm.uart_clock_selector_mut cZero = some (Except.ok ()) ↔
      ∀ g ∈ Ccm.uartClockGates, cZero.clock_gate g = some ClockGate.Disabled) :=
  uart_clock_selector_mut_spec cZero (by decide)

end Teensy40
